import Mathlib

/-!
Verification of the multi-tenant commerce core of the ecom-backend service.

The definitions below are a shallow embedding of the TypeScript route
handlers (Fastify) and their Prisma persistence layer:

* the principal / role model and the admin preHandler guard
  (src/plugins/auth.ts),
* the current multi-tenant order routes (src/routes/orders.ts,
  the version registered by src/server.ts),
* the legacy order route without tenant checks (earlier
  src/routes/orders.ts snapshot still in the tree),
* the category routes (src/routes/categories.ts),
* the current product routes (src/routes/products.ts).

The database is modelled as explicit lists of rows; Prisma calls become
list operations; a handler returns an HTTP-style result together with the
database after the request.  Monetary amounts are nonnegative integers
(cents) as enforced by the zod DTOs, so they are modelled as Nat.
-/

namespace EcomBackend

/-- Role enum from the JWT payload (src/plugins/auth.ts). -/
inductive Role where
  | SUPER_ADMIN
  | ADMIN
  | STAFF
  | CUSTOMER
deriving DecidableEq, Repr

/-- OrderStatus enum (Prisma schema; the values used by the code). -/
inductive OrderStatus where
  | PENDING
  | PAID
  | FULFILLED
  | CANCELLED
deriving DecidableEq, Repr

/-- PaymentMethod enum (Prisma migration: COD, BKASH, NAGAD, CARD, OTHER). -/
inductive PaymentMethod where
  | COD
  | BKASH
  | NAGAD
  | CARD
  | OTHER
deriving DecidableEq, Repr

/-- The verified principal attached to a request after jwtVerify
(req.user): id, email, role and the tenant binding. -/
structure Principal where
  id : String
  email : String
  role : Role
  storeId : Option String
deriving DecidableEq, Repr

/-- Store (tenant) row. -/
structure Store where
  id : String
  name : String
  slug : String
deriving DecidableEq, Repr

/-- Product row (the columns read or written by the verified handlers;
media/statistics columns not read by any verified operation are omitted). -/
structure Product where
  id : String
  storeId : String
  sku : String
  title : String
  slug : String
  description : Option String
  priceCents : Nat
  previousPriceCents : Option Nat
  currency : String
  stock : Nat
  featured : Bool
  thumbnailUrl : Option String
  galleryUrls : List String
deriving DecidableEq, Repr

/-- Category row. -/
structure Category where
  id : String
  storeId : String
  title : String
  slug : String
  description : Option String
  iconUrl : Option String
deriving DecidableEq, Repr

/-- ProductCategory join row (composite key productId, categoryId). -/
structure ProductCategory where
  productId : String
  categoryId : String
deriving DecidableEq, Repr

/-- OrderItem row: quantity, snapshot price and snapshot product facts. -/
structure OrderItem where
  productId : String
  quantity : Nat
  unitPriceCents : Nat
  lineTotalCents : Nat
  productTitle : String
  productSku : String
  productImageUrl : Option String
deriving DecidableEq, Repr

/-- Order row together with its owned items. -/
structure Order where
  id : String
  orderNumber : String
  storeId : String
  customerName : String
  phone : String
  email : Option String
  userId : Option String
  streetAddress : Option String
  division : Option String
  district : Option String
  upazila : Option String
  city : Option String
  postalCode : Option String
  customerNote : Option String
  adminNote : Option String
  status : OrderStatus
  paymentMethod : PaymentMethod
  subtotalCents : Nat
  deliveryCents : Nat
  taxCents : Nat
  totalCents : Nat
  currency : String
  items : List OrderItem
deriving DecidableEq, Repr

/-- The shared persisted store: one list of rows per table. -/
structure Db where
  stores : List Store
  products : List Product
  categories : List Category
  productCategories : List ProductCategory
  orders : List Order
deriving DecidableEq, Repr

/-- HTTP-style outcome of a handler: either a success reply with a status
code and a payload, or an error reply with a status code and message. -/
inductive HResult (α : Type) where
  | ok (code : Nat) (value : α)
  | err (code : Nat) (message : String)
deriving DecidableEq, Repr

/-- The admin preHandler (src/plugins/auth.ts): SUPER_ADMIN, ADMIN and
STAFF pass; CUSTOMER is rejected with 403; a missing principal with 401. -/
def isAdminRole : Role → Bool
  | .SUPER_ADMIN => true
  | .ADMIN => true
  | .STAFF => true
  | .CUSTOMER => false

/-- The per-handler multi-tenant access check, repeated verbatim in every
tenant-checked handler:
if role is not SUPER_ADMIN and the principal has no storeId or a storeId
different from the resource owner, the request is denied. -/
def tenantDenied (u : Principal) (resourceStoreId : String) : Bool :=
  u.role != .SUPER_ADMIN &&
    (match u.storeId with
     | none => true
     | some s => s != resourceStoreId)

/-! ## Request bodies (parsed zod DTOs) -/

/-- orderItemDto (admin channel): trusted operator supplies the price and
the snapshot fields. -/
structure CreateOrderItemBody where
  productId : String
  quantity : Nat
  unitPriceCents : Nat
  productTitle : String
  productSku : String
  productImageUrl : Option String
deriving DecidableEq, Repr

/-- createOrderDto (admin channel).  zod makes subtotalCents, totalCents,
deliveryCents, taxCents, currency and paymentMethod present after parse
(defaults applied); storeId is optional and only meaningful for
SUPER_ADMIN. -/
structure CreateOrderBody where
  orderNumber : String
  customerName : String
  phone : String
  email : Option String
  userId : Option String
  storeId : Option String
  streetAddress : Option String
  division : Option String
  district : Option String
  upazila : Option String
  city : Option String
  postalCode : Option String
  customerNote : Option String
  adminNote : Option String
  subtotalCents : Nat
  deliveryCents : Nat
  taxCents : Nat
  totalCents : Nat
  currency : String
  status : Option OrderStatus
  paymentMethod : PaymentMethod
  items : List CreateOrderItemBody
deriving DecidableEq, Repr

/-- updateOrderDto: every field optional.  For the nullable text fields the
outer Option is "absent from the payload" (Prisma leaves the column
unchanged) and the inner Option is the stored nullable value. -/
structure UpdateOrderBody where
  customerName : Option String
  phone : Option String
  email : Option (Option String)
  streetAddress : Option (Option String)
  division : Option (Option String)
  district : Option (Option String)
  upazila : Option (Option String)
  city : Option (Option String)
  postalCode : Option (Option String)
  customerNote : Option (Option String)
  adminNote : Option (Option String)
  deliveryCents : Option Nat
  taxCents : Option Nat
  totalCents : Option Nat
  status : Option OrderStatus
deriving DecidableEq, Repr

/-- storefrontOrderItemDto: the anonymous caller supplies only a product id
and a quantity, never a price. -/
structure StorefrontItemBody where
  productId : String
  quantity : Nat
deriving DecidableEq, Repr

/-- storefrontCreateOrderDto (deliveryCents and taxCents default to 0). -/
structure StorefrontCreateOrderBody where
  customerName : String
  phone : String
  email : Option String
  streetAddress : Option String
  division : Option String
  district : Option String
  upazila : Option String
  city : Option String
  postalCode : Option String
  customerNote : Option String
  deliveryCents : Nat
  taxCents : Nat
  items : List StorefrontItemBody
deriving DecidableEq, Repr

/-- categoryCreateDto: storeId in the body is only meaningful for
SUPER_ADMIN. -/
structure CategoryCreateBody where
  title : String
  slug : String
  description : Option String
  iconUrl : Option String
  storeId : Option String
deriving DecidableEq, Repr

/-- productDto (current products route): storeId is a required body field. -/
structure ProductCreateBody where
  sku : String
  title : String
  slug : String
  description : Option String
  priceCents : Nat
  previousPriceCents : Option Nat
  currency : String
  stock : Nat
  featured : Bool
  thumbnailUrl : Option String
  galleryUrls : List String
  categoryIds : List String
  storeId : String
deriving DecidableEq, Repr

/-! ## Current multi-tenant order routes (src/routes/orders.ts) -/

namespace OrdersRoute

/-- GET /orders/:id (admin, multi-tenant): load the order, 404 when
missing, deny with 403 when the principal does not own the order's store,
otherwise return the full order. -/
def getOrderById (db : Db) (user : Option Principal) (id : String) :
    HResult Order :=
  match user with
  | none => .err 401 "Unauthorized"
  | some u =>
    if isAdminRole u.role = false then .err 403 "Forbidden"
    else
      match db.orders.find? (fun o => o.id == id) with
      | none => .err 404 "Order not found"
      | some order =>
        if tenantDenied u order.storeId then
          .err 403 "You do not own this order/store."
        else .ok 200 order

/-- The body of POST /orders after the storeId resolution.  newId stands
for the id generated by the database.  subtotalCents uses the JS falsy
fallback: the body value unless it is 0, otherwise the recomputed sum of
unitPriceCents * quantity.  totalCents is a required DTO field, so the
nullish fallback to subtotal + delivery + tax in the source can never
fire and the body value is always persisted. -/
def createOrderForStore (db : Db) (body : CreateOrderBody)
    (newId storeId : String) : HResult Order × Db :=
  let computedSubtotal :=
    (body.items.map (fun it => it.unitPriceCents * it.quantity)).sum
  let subtotalCents :=
    if body.subtotalCents = 0 then computedSubtotal
    else body.subtotalCents
  let totalCents := body.totalCents
  let order : Order :=
          { id := newId
            orderNumber := body.orderNumber
            storeId := storeId
            customerName := body.customerName
            phone := body.phone
            email := body.email
            userId := body.userId
            streetAddress := body.streetAddress
            division := body.division
            district := body.district
            upazila := body.upazila
            city := body.city
            postalCode := body.postalCode
            customerNote := body.customerNote
            adminNote := body.adminNote
            status := body.status.getD .PENDING
            paymentMethod := body.paymentMethod
            subtotalCents := subtotalCents
            deliveryCents := body.deliveryCents
            taxCents := body.taxCents
            totalCents := totalCents
            currency := body.currency
            items := body.items.map (fun it =>
              { productId := it.productId
                quantity := it.quantity
                unitPriceCents := it.unitPriceCents
                lineTotalCents := it.unitPriceCents * it.quantity
                productTitle := it.productTitle
                productSku := it.productSku
                productImageUrl := it.productImageUrl }) }
  (.ok 201 order, { db with orders := db.orders ++ [order] })

/-- POST /orders (admin, multi-tenant), the guard and storeId resolution:
SUPER_ADMIN must supply a storeId in the body (400 otherwise),
ADMIN/STAFF always use their own storeId (400 when they have none) —
the body's storeId is ignored for them. -/
def createOrder (db : Db) (user : Option Principal) (body : CreateOrderBody)
    (newId : String) : HResult Order × Db :=
  match user with
  | none => (.err 401 "Unauthorized", db)
  | some u =>
    if isAdminRole u.role = false then (.err 403 "Forbidden", db)
    else
      if u.role = .SUPER_ADMIN then
        match body.storeId with
        | none => (.err 400 "SUPER_ADMIN must provide storeId for order.", db)
        | some s => createOrderForStore db body newId s
      else
        match u.storeId with
        | none => (.err 400 "This user is not associated with a store.", db)
        | some s => createOrderForStore db body newId s

/-- The `data` object of prisma.order.update in PUT /orders/:id: only the
DTO fields are written; an absent field leaves the column unchanged. -/
def applyOrderUpdate (o : Order) (b : UpdateOrderBody) : Order :=
  { o with
    customerName := b.customerName.getD o.customerName
    phone := b.phone.getD o.phone
    email := b.email.getD o.email
    streetAddress := b.streetAddress.getD o.streetAddress
    division := b.division.getD o.division
    district := b.district.getD o.district
    upazila := b.upazila.getD o.upazila
    city := b.city.getD o.city
    postalCode := b.postalCode.getD o.postalCode
    customerNote := b.customerNote.getD o.customerNote
    adminNote := b.adminNote.getD o.adminNote
    deliveryCents := b.deliveryCents.getD o.deliveryCents
    taxCents := b.taxCents.getD o.taxCents
    totalCents := b.totalCents.getD o.totalCents
    status := b.status.getD o.status }

/-- PUT /orders/:id (admin, multi-tenant): 404 when missing, 403 when the
principal does not own the order's store, otherwise update exactly the DTO
fields. -/
def updateOrder (db : Db) (user : Option Principal) (id : String)
    (body : UpdateOrderBody) : HResult Order × Db :=
  match user with
  | none => (.err 401 "Unauthorized", db)
  | some u =>
    if isAdminRole u.role = false then (.err 403 "Forbidden", db)
    else
      match db.orders.find? (fun o => o.id == id) with
      | none => (.err 404 "Order not found", db)
      | some existing =>
        if tenantDenied u existing.storeId then
          (.err 403 "You do not own this order/store.", db)
        else
          (.ok 200 (applyOrderUpdate existing body),
           { db with orders := db.orders.map (fun o =>
               if o.id == id then applyOrderUpdate o body else o) })

/-- DELETE /orders/:id (admin, multi-tenant). -/
def deleteOrder (db : Db) (user : Option Principal) (id : String) :
    HResult Unit × Db :=
  match user with
  | none => (.err 401 "Unauthorized", db)
  | some u =>
    if isAdminRole u.role = false then (.err 403 "Forbidden", db)
    else
      match db.orders.find? (fun o => o.id == id) with
      | none => (.err 404 "Order not found", db)
      | some existing =>
        if tenantDenied u existing.storeId then
          (.err 403 "You do not own this order/store.", db)
        else
          (.ok 204 (),
           { db with orders := db.orders.filter (fun o => o.id != id) })

/-- PATCH /orders/:id/status (admin, multi-tenant): after the tenant check
the handler stores the requested status unconditionally. -/
def patchOrderStatus (db : Db) (user : Option Principal) (id : String)
    (status : OrderStatus) : HResult Order × Db :=
  match user with
  | none => (.err 401 "Unauthorized", db)
  | some u =>
    if isAdminRole u.role = false then (.err 403 "Forbidden", db)
    else
      match db.orders.find? (fun o => o.id == id) with
      | none => (.err 404 "Order not found", db)
      | some existing =>
        if tenantDenied u existing.storeId then
          (.err 403 "You do not own this order/store.", db)
        else
          (.ok 200 { existing with status := status },
           { db with orders := db.orders.map (fun o =>
               if o.id == id then { o with status := status } else o) })

/-- One entry of the `itemCreates` array of POST /storefront/orders: the
price is the product's current priceCents and title/sku/image are
snapshotted from the product row. -/
def mkStorefrontItem (p : Product) (it : StorefrontItemBody) : OrderItem :=
  { productId := it.productId
    quantity := it.quantity
    unitPriceCents := p.priceCents
    lineTotalCents := p.priceCents * it.quantity
    productTitle := p.title
    productSku := p.sku
    productImageUrl := p.thumbnailUrl }

/-- `body.items.map` with the productsById lookup.  The source indexes a
Map and dereferences with a non-null assertion; a missing entry would
throw inside the handler (500), modelled here as `none`. -/
def buildStorefrontItems (products : List Product) :
    List StorefrontItemBody → Option (List OrderItem)
  | [] => some []
  | it :: rest =>
    match products.find? (fun p => p.id == it.productId),
          buildStorefrontItems products rest with
    | some p, some tail => some (mkStorefrontItem p it :: tail)
    | _, _ => none

/-- POST /storefront/orders (public): load the referenced products, check
existence by comparing counts, check that all products share one store,
derive prices and snapshots from the product rows, and create the order
atomically.  newId and orderNumber stand for the generated id and the
date+random order number. -/
def storefrontCreateOrder (db : Db) (body : StorefrontCreateOrderBody)
    (newId : String) (orderNumber : String) : HResult Order × Db :=
  let productIds := body.items.map StorefrontItemBody.productId
  let products := db.products.filter (fun p => productIds.contains p.id)
  if products.length ≠ productIds.length then
    (.err 400 "One or more products no longer exist", db)
  else if 1 < ((products.map Product.storeId).dedup).length then
    (.err 400 "All products in an order must belong to the same store.", db)
  else
    match products with
    | [] => (.err 500 "Internal server error", db)
    | p0 :: _ =>
      match buildStorefrontItems products body.items with
      | none => (.err 500 "Internal server error", db)
      | some itemCreates =>
        let subtotalCents := (itemCreates.map OrderItem.lineTotalCents).sum
        let deliveryCents := body.deliveryCents
        let taxCents := body.taxCents
        let totalCents := subtotalCents + deliveryCents + taxCents
        let storeId := p0.storeId
        let currency := if p0.currency = "" then "BDT" else p0.currency
        let order : Order :=
          { id := newId
            orderNumber := orderNumber
            storeId := storeId
            customerName := body.customerName
            phone := body.phone
            email := body.email
            userId := none
            streetAddress := body.streetAddress
            division := body.division
            district := body.district
            upazila := body.upazila
            city := body.city
            postalCode := body.postalCode
            customerNote := body.customerNote
            adminNote := none
            status := .PENDING
            paymentMethod := .COD
            subtotalCents := subtotalCents
            deliveryCents := deliveryCents
            taxCents := taxCents
            totalCents := totalCents
            currency := currency
            items := itemCreates }
        (.ok 201 order, { db with orders := db.orders ++ [order] })

end OrdersRoute

/-! ## Legacy order route (earlier src/routes/orders.ts snapshot) -/

namespace OrdersLegacyRoute

/-- Legacy GET /orders/:id: behind the admin preHandler but with no
tenant check at all — any admin-capable principal receives the full
order of any store. -/
def getOrderById (db : Db) (user : Option Principal) (id : String) :
    HResult Order :=
  match user with
  | none => .err 401 "Unauthorized"
  | some u =>
    if isAdminRole u.role = false then .err 403 "Forbidden"
    else
      match db.orders.find? (fun o => o.id == id) with
      | none => .err 404 "Order not found"
      | some order => .ok 200 order

end OrdersLegacyRoute

/-! ## Category routes (src/routes/categories.ts) -/

namespace CategoriesRoute

/-- GET /categories/:id (admin, multi-tenant). -/
def getCategoryById (db : Db) (user : Option Principal) (id : String) :
    HResult Category :=
  match user with
  | none => .err 401 "Unauthorized"
  | some u =>
    if isAdminRole u.role = false then .err 403 "Forbidden"
    else
      match db.categories.find? (fun c => c.id == id) with
      | none => .err 404 "Category not found"
      | some category =>
        if tenantDenied u category.storeId then
          .err 403 "You do not own this category/store."
        else .ok 200 category

/-- POST /categories (admin, multi-tenant): SUPER_ADMIN must supply a
storeId in the body, ADMIN/STAFF always use their own; a (storeId, slug)
uniqueness violation (Prisma P2002) maps to 409. -/
def createCategoryForStore (db : Db) (body : CategoryCreateBody)
    (newId storeId : String) : HResult Category × Db :=
  if db.categories.any (fun c =>
      c.storeId == storeId && c.slug == body.slug) then
    (.err 409 "Slug already exists in this store.", db)
  else
    let created : Category :=
      { id := newId
        storeId := storeId
        title := body.title
        slug := body.slug
        description := body.description
        iconUrl := body.iconUrl }
    (.ok 201 created, { db with categories := db.categories ++ [created] })

/-- POST /categories (admin, multi-tenant), guard and storeId resolution:
SUPER_ADMIN must supply a storeId in the body, ADMIN/STAFF always use
their own and the body's storeId is ignored. -/
def createCategory (db : Db) (user : Option Principal)
    (body : CategoryCreateBody) (newId : String) : HResult Category × Db :=
  match user with
  | none => (.err 401 "Unauthorized", db)
  | some u =>
    if isAdminRole u.role = false then (.err 403 "Forbidden", db)
    else
      if u.role = .SUPER_ADMIN then
        match body.storeId with
        | none =>
          (.err 400 "SUPER_ADMIN must provide storeId for category.", db)
        | some s => createCategoryForStore db body newId s
      else
        match u.storeId with
        | none => (.err 400 "This user is not associated with a store.", db)
        | some s => createCategoryForStore db body newId s

/-- DELETE /categories/:id (admin, multi-tenant): 404 when missing, 403
when the principal does not own the category's store; the S3 icon cleanup
is an external best-effort side effect that never changes the database;
prisma.category.delete raises P2003 when a ProductCategory row still
references the category (FK ON DELETE RESTRICT), mapped to 409 with the
row left untouched. -/
def deleteCategory (db : Db) (user : Option Principal) (id : String) :
    HResult Unit × Db :=
  match user with
  | none => (.err 401 "Unauthorized", db)
  | some u =>
    if isAdminRole u.role = false then (.err 403 "Forbidden", db)
    else
      match db.categories.find? (fun c => c.id == id) with
      | none => (.err 404 "Category not found", db)
      | some category =>
        if tenantDenied u category.storeId then
          (.err 403 "You do not own this category/store.", db)
        else
          if db.productCategories.any (fun pc => pc.categoryId == id) then
            (.err 409 "Category is in use by products", db)
          else
            (.ok 204 (),
             { db with categories := db.categories.filter (fun c => c.id != id) })

end CategoriesRoute

/-! ## Current product routes (src/routes/products.ts) -/

namespace ProductsRoute

/-- POST /products (admin): the body must carry a storeId, the handler
rejects with 403 unless it equals the principal's own storeId, checks that
the store exists (404 otherwise) and then creates the product together
with its category links in one transaction. -/
def createProduct (db : Db) (user : Option Principal)
    (body : ProductCreateBody) (newId : String) : HResult Product × Db :=
  match user with
  | none => (.err 401 "Unauthorized", db)
  | some u =>
    if isAdminRole u.role = false then (.err 403 "Forbidden", db)
    else
      if (match u.storeId with
          | none => true
          | some s => s != body.storeId) then
        (.err 403 "You do not have permission to create products for this store.",
         db)
      else if db.stores.any (fun s => s.id == body.storeId) = false then
        (.err 404 "Store not found", db)
      else
        let product : Product :=
          { id := newId
            storeId := body.storeId
            sku := body.sku
            title := body.title
            slug := body.slug
            description := body.description
            priceCents := body.priceCents
            previousPriceCents := body.previousPriceCents
            currency := body.currency
            stock := body.stock
            featured := body.featured
            thumbnailUrl := body.thumbnailUrl
            galleryUrls := body.galleryUrls }
        (.ok 201 product,
         { db with
             products := db.products ++ [product]
             productCategories := db.productCategories ++
               body.categoryIds.map (fun catId =>
                 { productId := newId, categoryId := catId }) })

/-- DELETE /products/:id (admin): loads the product for the best-effort
media cleanup (external side effect), then deletes the row — with NO
tenant check; ProductCategory rows cascade. -/
def deleteProduct (db : Db) (user : Option Principal) (id : String) :
    HResult Unit × Db :=
  match user with
  | none => (.err 401 "Unauthorized", db)
  | some u =>
    if isAdminRole u.role = false then (.err 403 "Forbidden", db)
    else
      match db.products.find? (fun p => p.id == id) with
      | none => (.err 404 "Product not found", db)
      | some _ =>
        (.ok 204 (),
         { db with
             products := db.products.filter (fun p => p.id != id)
             productCategories :=
               db.productCategories.filter (fun pc => pc.productId != id) })

end ProductsRoute

/-! ## Concrete fixtures used by witnesses and counterexamples -/

/-- An ADMIN principal bound to store S1. -/
def adminS1 : Principal :=
  { id := "u1", email := "admin@s1.example", role := .ADMIN, storeId := some "S1" }

/-- Base product row for fixtures. -/
def baseProduct : Product :=
  { id := "p0", storeId := "S0", sku := "SKU-0", title := "Base", slug := "base",
    description := none, priceCents := 0, previousPriceCents := none,
    currency := "BDT", stock := 0, featured := false, thumbnailUrl := none,
    galleryUrls := [] }

/-- Product of store S1 priced at 1000 cents, sku SKU-1. -/
def prodA1 : Product :=
  { baseProduct with
    id := "pa", storeId := "S1", sku := "SKU-1",
    title := "Alpha", slug := "alpha", priceCents := 1000,
    thumbnailUrl := some "https://img.example/a.png" }

/-- Product of store S2 priced at 500 cents. -/
def prodB2 : Product :=
  { baseProduct with
    id := "pb", storeId := "S2", sku := "SKU-2",
    title := "Beta", slug := "beta", priceCents := 500 }

/-- Base order row for fixtures. -/
def baseOrder : Order :=
  { id := "o0", orderNumber := "ORD-0", storeId := "S0", customerName := "Cust",
    phone := "0100000000", email := none, userId := none, streetAddress := none,
    division := none, district := none, upazila := none, city := none,
    postalCode := none, customerNote := none, adminNote := none,
    status := .PENDING, paymentMethod := .COD, subtotalCents := 0,
    deliveryCents := 0, taxCents := 0, totalCents := 0, currency := "BDT",
    items := [] }

/-- An order owned by store S2. -/
def orderB : Order :=
  { baseOrder with
    id := "o1", orderNumber := "ORD-B", storeId := "S2",
    subtotalCents := 1000, totalCents := 1000 }

/-- Database holding one S2 product and one S2 order; the acting principal
in the C1 scenario is adminS1 of store S1. -/
def dbC1 : Db :=
  { stores := [], products := [prodB2], categories := [],
    productCategories := [], orders := [orderB] }

/-- Base storefront creation body. -/
def baseStorefrontBody : StorefrontCreateOrderBody :=
  { customerName := "Cust", phone := "0100000000", email := none,
    streetAddress := none, division := none, district := none, upazila := none,
    city := none, postalCode := none, customerNote := none,
    deliveryCents := 0, taxCents := 0, items := [] }

/-- Storefront request referencing products of two different stores. -/
def bodyCross : StorefrontCreateOrderBody :=
  { baseStorefrontBody with items := [⟨"pa", 1⟩, ⟨"pb", 1⟩] }

/-- Database with one product per store. -/
def dbAB : Db :=
  { stores := [], products := [prodA1, prodB2], categories := [],
    productCategories := [], orders := [] }

/-- Storefront request ordering quantity 2 of product pa. -/
def bodyQty2 : StorefrontCreateOrderBody :=
  { baseStorefrontBody with items := [⟨"pa", 2⟩] }

/-- Database with only the S1 product pa. -/
def dbA : Db :=
  { stores := [], products := [prodA1], categories := [],
    productCategories := [], orders := [] }

/-- Storefront request repeating the same existing product id twice. -/
def bodyDup : StorefrontCreateOrderBody :=
  { baseStorefrontBody with items := [⟨"pa", 1⟩, ⟨"pa", 1⟩] }

/-- The order the storefront engine creates for bodyQty2 against dbA. -/
def oQty2 : Order :=
  { baseOrder with
    id := "oq", orderNumber := "N1", storeId := "S1",
    subtotalCents := 2000, totalCents := 2000,
    items := [{ productId := "pa", quantity := 2, unitPriceCents := 1000,
                lineTotalCents := 2000, productTitle := "Alpha",
                productSku := "SKU-1",
                productImageUrl := some "https://img.example/a.png" }] }

/-- dbA after the bodyQty2 storefront creation. -/
def dbA2 : Db := { dbA with orders := [oQty2] }

/-- Base admin order-creation body. -/
def baseCreateOrderBody : CreateOrderBody :=
  { orderNumber := "ORD-A", customerName := "Cust", phone := "0100000000",
    email := none, userId := none, storeId := none, streetAddress := none,
    division := none, district := none, upazila := none, city := none,
    postalCode := none, customerNote := none, adminNote := none,
    subtotalCents := 0, deliveryCents := 0, taxCents := 0, totalCents := 0,
    currency := "BDT", status := none, paymentMethod := .COD, items := [] }

/-- One admin line item: product pa, quantity 1, operator price 1000. -/
def itemAdminA : CreateOrderItemBody :=
  { productId := "pa", quantity := 1, unitPriceCents := 1000,
    productTitle := "Alpha", productSku := "SKU-1", productImageUrl := none }

/-- Admin body whose client-supplied totalCents (5) contradicts
subtotal + delivery + tax (1000). -/
def bodyAdminTotalMismatch : CreateOrderBody :=
  { baseCreateOrderBody with
    subtotalCents := 1000, totalCents := 5,
    items := [itemAdminA] }

/-- The empty database. -/
def dbEmpty : Db :=
  { stores := [], products := [], categories := [],
    productCategories := [], orders := [] }

/-- Order persisted for bodyAdminTotalMismatch. -/
def oC4 : Order :=
  { baseOrder with
    id := "o4", orderNumber := "ORD-A", storeId := "S1",
    subtotalCents := 1000, totalCents := 5,
    items := [{ productId := "pa", quantity := 1, unitPriceCents := 1000,
                lineTotalCents := 1000, productTitle := "Alpha",
                productSku := "SKU-1", productImageUrl := none }] }

/-- Admin body supplying a nonzero subtotal (5000) different from the
recomputed line-total sum (1000). -/
def bodyAdminSubtotal5000 : CreateOrderBody :=
  { baseCreateOrderBody with
    subtotalCents := 5000, totalCents := 5000,
    items := [itemAdminA] }

/-- Order persisted for bodyAdminSubtotal5000. -/
def oC5 : Order :=
  { baseOrder with
    id := "o5", orderNumber := "ORD-A", storeId := "S1",
    subtotalCents := 5000, totalCents := 5000,
    items := [{ productId := "pa", quantity := 1, unitPriceCents := 1000,
                lineTotalCents := 1000, productTitle := "Alpha",
                productSku := "SKU-1", productImageUrl := none }] }

/-- Store rows S1 and S2. -/
def storeS1 : Store := { id := "S1", name := "Store One", slug := "store-one" }

/-- Store row S2. -/
def storeS2 : Store := { id := "S2", name := "Store Two", slug := "store-two" }

/-- Database holding the two store rows. -/
def dbStores : Db :=
  { stores := [storeS1, storeS2], products := [], categories := [],
    productCategories := [], orders := [] }

/-- Admin order body trying to smuggle storeId S2. -/
def bodyOrderSmuggle : CreateOrderBody :=
  { baseCreateOrderBody with
    storeId := some "S2", subtotalCents := 1000,
    totalCents := 1000, items := [itemAdminA] }

/-- Order persisted for bodyOrderSmuggle by adminS1: tenant is S1. -/
def oC7 : Order :=
  { baseOrder with
    id := "o7", orderNumber := "ORD-A", storeId := "S1",
    subtotalCents := 1000, totalCents := 1000,
    items := [{ productId := "pa", quantity := 1, unitPriceCents := 1000,
                lineTotalCents := 1000, productTitle := "Alpha",
                productSku := "SKU-1", productImageUrl := none }] }

/-- Category body trying to smuggle storeId S2. -/
def bodyCatSmuggle : CategoryCreateBody :=
  { title := "Ten", slug := "ten", description := none, iconUrl := none,
    storeId := some "S2" }

/-- Category persisted for bodyCatSmuggle by adminS1: tenant is S1. -/
def catC7 : Category :=
  { id := "c7", storeId := "S1", title := "Ten", slug := "ten",
    description := none, iconUrl := none }

/-- Product body with the principal's own storeId S1. -/
def bodyProdOk : ProductCreateBody :=
  { sku := "SKU-7", title := "Gamma", slug := "gamma", description := none,
    priceCents := 700, previousPriceCents := none, currency := "BDT",
    stock := 3, featured := false, thumbnailUrl := none, galleryUrls := [],
    categoryIds := [], storeId := "S1" }

/-- Product persisted for bodyProdOk. -/
def prodC7 : Product :=
  { id := "p7", storeId := "S1", sku := "SKU-7", title := "Gamma",
    slug := "gamma", description := none, priceCents := 700,
    previousPriceCents := none, currency := "BDT", stock := 3,
    featured := false, thumbnailUrl := none, galleryUrls := [] }

/-- Product body with a foreign storeId S2. -/
def bodyProdBad : ProductCreateBody := { bodyProdOk with storeId := "S2" }

/-- A FULFILLED order of store S1. -/
def orderF : Order :=
  { baseOrder with
    id := "of1", orderNumber := "ORD-F", storeId := "S1",
    status := .FULFILLED }

/-- Database holding the fulfilled order. -/
def dbF : Db :=
  { stores := [], products := [], categories := [],
    productCategories := [], orders := [orderF] }

/-- orderF after being patched back to PENDING. -/
def oFP : Order := { orderF with status := .PENDING }

/-- A category of store S1 still referenced by product pa. -/
def catS1 : Category :=
  { id := "c1", storeId := "S1", title := "Food", slug := "food",
    description := none, iconUrl := some "https://img.example/icon.png" }

/-- Database where product pa references category c1. -/
def dbCat : Db :=
  { stores := [], products := [prodA1], categories := [catS1],
    productCategories := [{ productId := "pa", categoryId := "c1" }],
    orders := [] }

/-- An order of store S1 with nontrivial monetary fields and one item. -/
def orderU : Order :=
  { baseOrder with
    id := "ou", orderNumber := "ORD-U", storeId := "S1",
    subtotalCents := 1500, deliveryCents := 60, totalCents := 1560,
    paymentMethod := .BKASH,
    items := [{ productId := "pa", quantity := 1, unitPriceCents := 1500,
                lineTotalCents := 1500, productTitle := "Alpha",
                productSku := "SKU-1", productImageUrl := none }] }

/-- Database holding orderU. -/
def dbU : Db :=
  { stores := [], products := [], categories := [],
    productCategories := [], orders := [orderU] }

/-- Admin order update touching name, address, adminNote, delivery, total
and status. -/
def bodyUpd : UpdateOrderBody :=
  { customerName := some "New Name", phone := none, email := none,
    streetAddress := some (some "12 Road"), division := none, district := none,
    upazila := none, city := none, postalCode := none, customerNote := none,
    adminNote := some none, deliveryCents := some 80, taxCents := none,
    totalCents := some 9999, status := some .PAID }

/-- orderU after applying bodyUpd. -/
def orderU2 : Order :=
  { orderU with
    customerName := "New Name", streetAddress := some "12 Road",
    adminNote := none, deliveryCents := 80, totalCents := 9999,
    status := .PAID }

/-! ## Helper lemmas -/

/-- A list whose dedup has at most one element is constant. -/
theorem eq_of_mem_of_dedup_length_le_one {α : Type} [DecidableEq α]
    {l : List α} (h : l.dedup.length ≤ 1) {a b : α}
    (ha : a ∈ l) (hb : b ∈ l) : a = b := by
  have ha2 : a ∈ l.dedup := List.mem_dedup.mpr ha
  have hb2 : b ∈ l.dedup := List.mem_dedup.mpr hb
  rcases hdl : l.dedup with _ | ⟨x, _ | ⟨y, ys⟩⟩
  · rw [hdl] at ha2; cases ha2
  · rw [hdl] at ha2 hb2
    simp only [List.mem_singleton] at ha2 hb2
    rw [ha2, hb2]
  · rw [hdl] at h; simp at h

/-- Inversion for buildStorefrontItems: every produced order item comes
from a body item and the product row its id resolved to. -/
theorem buildStorefrontItems_mem {products : List Product} :
    ∀ {l : List StorefrontItemBody} {items : List OrderItem},
      OrdersRoute.buildStorefrontItems products l = some items →
      ∀ it ∈ items, ∃ b p,
        products.find? (fun q => q.id == b.productId) = some p ∧
        it = OrdersRoute.mkStorefrontItem p b := by
  intro l
  induction l with
  | nil =>
    intro items h it hit
    simp only [OrdersRoute.buildStorefrontItems, Option.some.injEq] at h
    subst h
    cases hit
  | cons hd tl ih =>
    intro items h it hit
    simp only [OrdersRoute.buildStorefrontItems] at h
    cases hfind : products.find? (fun p => p.id == hd.productId) with
    | none => rw [hfind] at h; simp at h
    | some p =>
      rw [hfind] at h
      cases hrec : OrdersRoute.buildStorefrontItems products tl with
      | none => rw [hrec] at h; simp at h
      | some tail =>
        rw [hrec] at h
        simp only [Option.some.injEq] at h
        subst h
        rcases List.mem_cons.mp hit with hh | hh
        · exact ⟨hd, p, hfind, hh⟩
        · exact ih hrec it hh

/-- Inversion for a successful storefront creation: the filtered product
list is nonempty with all rows sharing one store, the items were built
from it, and the money fields of the created order are the derived ones. -/
theorem storefrontCreateOrder_ok_inv {db : Db}
    {body : StorefrontCreateOrderBody} {newId orderNumber : String}
    {o : Order} {db2 : Db}
    (h : OrdersRoute.storefrontCreateOrder db body newId orderNumber =
      (.ok 201 o, db2)) :
    ∃ p0 rest itemCreates,
      db.products.filter (fun p =>
        (body.items.map StorefrontItemBody.productId).contains p.id) =
          p0 :: rest ∧
      (((p0 :: rest).map Product.storeId).dedup).length ≤ 1 ∧
      OrdersRoute.buildStorefrontItems (p0 :: rest) body.items =
        some itemCreates ∧
      o.items = itemCreates ∧
      o.storeId = p0.storeId ∧
      o.subtotalCents = (itemCreates.map OrderItem.lineTotalCents).sum ∧
      o.deliveryCents = body.deliveryCents ∧
      o.taxCents = body.taxCents ∧
      o.totalCents = o.subtotalCents + o.deliveryCents + o.taxCents := by
  simp only [OrdersRoute.storefrontCreateOrder] at h
  split_ifs at h with h1 h2
  · simp at h
  · simp at h
  · split at h
    · simp at h
    · rename_i p0 rest hprod
      split at h
      · simp at h
      · rename_i itemCreates hbuild
        rw [hprod] at h2 hbuild
        simp only [Prod.mk.injEq, HResult.ok.injEq] at h
        obtain ⟨⟨-, ho⟩, -⟩ := h
        subst ho
        exact ⟨p0, rest, itemCreates, hprod, Nat.le_of_not_lt h2, hbuild,
          rfl, rfl, rfl, rfl, rfl, rfl⟩

/-- Inversion for the post-resolution admin order creation: the persisted
order carries the resolved storeId and the falsy-fallback subtotal. -/
theorem createOrderForStore_ok_inv {db : Db} {body : CreateOrderBody}
    {newId storeId : String} {o : Order} {db2 : Db}
    (h : OrdersRoute.createOrderForStore db body newId storeId =
      (.ok 201 o, db2)) :
    o.storeId = storeId ∧
    o.subtotalCents =
      (if body.subtotalCents = 0
       then (body.items.map (fun it => it.unitPriceCents * it.quantity)).sum
       else body.subtotalCents) := by
  simp only [OrdersRoute.createOrderForStore] at h
  simp only [Prod.mk.injEq, HResult.ok.injEq] at h
  obtain ⟨⟨-, ho⟩, -⟩ := h
  subst ho
  exact ⟨rfl, rfl⟩

/-- Inversion for the admin order creation guard: on success the store
was resolved from the body for SUPER_ADMIN and from the principal
otherwise. -/
theorem createOrder_ok_resolution {db : Db} {u : Principal}
    {body : CreateOrderBody} {newId : String} {o : Order} {db2 : Db}
    (h : OrdersRoute.createOrder db (some u) body newId = (.ok 201 o, db2)) :
    ∃ s, ((u.role = .SUPER_ADMIN ∧ body.storeId = some s) ∨
          (u.role ≠ .SUPER_ADMIN ∧ u.storeId = some s)) ∧
      OrdersRoute.createOrderForStore db body newId s = (.ok 201 o, db2) := by
  simp only [OrdersRoute.createOrder] at h
  by_cases hadm : isAdminRole u.role = false
  · rw [if_pos hadm] at h; simp at h
  · rw [if_neg hadm] at h
    by_cases hsup : u.role = .SUPER_ADMIN
    · rw [if_pos hsup] at h
      cases hb : body.storeId with
      | none => rw [hb] at h; simp at h
      | some s => rw [hb] at h; exact ⟨s, Or.inl ⟨hsup, rfl⟩, h⟩
    · rw [if_neg hsup] at h
      cases hu : u.storeId with
      | none => rw [hu] at h; simp at h
      | some s => rw [hu] at h; exact ⟨s, Or.inr ⟨hsup, rfl⟩, h⟩

/-- Inversion for the post-resolution category creation. -/
theorem createCategoryForStore_ok_inv {db : Db} {body : CategoryCreateBody}
    {newId storeId : String} {c : Category} {db2 : Db}
    (h : CategoriesRoute.createCategoryForStore db body newId storeId =
      (.ok 201 c, db2)) :
    c.storeId = storeId := by
  simp only [CategoriesRoute.createCategoryForStore] at h
  by_cases hdup : db.categories.any (fun x =>
      x.storeId == storeId && x.slug == body.slug) = true
  · rw [if_pos hdup] at h; simp at h
  · rw [if_neg hdup] at h
    simp only [Prod.mk.injEq, HResult.ok.injEq] at h
    obtain ⟨⟨-, hc⟩, -⟩ := h
    subst hc
    rfl

/-- Inversion for the category creation guard. -/
theorem createCategory_ok_resolution {db : Db} {u : Principal}
    {body : CategoryCreateBody} {newId : String} {c : Category} {db2 : Db}
    (h : CategoriesRoute.createCategory db (some u) body newId =
      (.ok 201 c, db2)) :
    ∃ s, ((u.role = .SUPER_ADMIN ∧ body.storeId = some s) ∨
          (u.role ≠ .SUPER_ADMIN ∧ u.storeId = some s)) ∧
      CategoriesRoute.createCategoryForStore db body newId s =
        (.ok 201 c, db2) := by
  simp only [CategoriesRoute.createCategory] at h
  by_cases hadm : isAdminRole u.role = false
  · rw [if_pos hadm] at h; simp at h
  · rw [if_neg hadm] at h
    by_cases hsup : u.role = .SUPER_ADMIN
    · rw [if_pos hsup] at h
      cases hb : body.storeId with
      | none => rw [hb] at h; simp at h
      | some s => rw [hb] at h; exact ⟨s, Or.inl ⟨hsup, rfl⟩, h⟩
    · rw [if_neg hsup] at h
      cases hu : u.storeId with
      | none => rw [hu] at h; simp at h
      | some s => rw [hu] at h; exact ⟨s, Or.inr ⟨hsup, rfl⟩, h⟩

/-! ## Claim theorems -/

/-- Claim C1 (code bug): tenant isolation does NOT hold for every
get/update/delete-by-id operation.  At the concrete failing input — an
ADMIN of store S1 acting on records owned by store S2 — the current
DELETE /products/:id removes the foreign product (204) with no tenant
check, and the legacy GET /orders/:id returns the foreign order's full
fields (200); only the current multi-tenant GET /orders/:id denies with
403 as the claim demands. -/
theorem c1_tenant_isolation_violated :
    ProductsRoute.deleteProduct dbC1 (some adminS1) "pb" =
      (.ok 204 (), { dbC1 with products := [] }) ∧
    OrdersLegacyRoute.getOrderById dbC1 (some adminS1) "o1" =
      .ok 200 orderB ∧
    OrdersRoute.getOrderById dbC1 (some adminS1) "o1" =
      .err 403 "You do not own this order/store." := by
  refine ⟨?_, ?_, ?_⟩ <;> decide

/-- Claim C2: a storefront order-creation request whose referenced
products span more than one distinct storeId always fails with a
400-class validation error and leaves the database unchanged (no Order
and no OrderItem row is written). -/
theorem c2_storefront_cross_tenant_rejected
    (db : Db) (body : StorefrontCreateOrderBody) (newId orderNumber : String)
    (h : 1 < (((db.products.filter (fun p =>
          (body.items.map StorefrontItemBody.productId).contains p.id)).map
            Product.storeId).dedup).length) :
    ∃ msg, OrdersRoute.storefrontCreateOrder db body newId orderNumber =
      (.err 400 msg, db) := by
  simp only [OrdersRoute.storefrontCreateOrder]
  split_ifs with h1
  · exact ⟨_, rfl⟩
  · exact ⟨_, rfl⟩

/-- Witness for C2: products pa (store S1) and pb (store S2) in one
storefront request are rejected with a 400 and nothing is written. -/
theorem c2_witness :
    (1 < (((dbAB.products.filter (fun p =>
        (bodyCross.items.map StorefrontItemBody.productId).contains p.id)).map
          Product.storeId).dedup).length) ∧
    ∃ msg, OrdersRoute.storefrontCreateOrder dbAB bodyCross "oc" "NC" =
      (.err 400 msg, dbAB) :=
  ⟨by decide, c2_storefront_cross_tenant_rejected dbAB bodyCross "oc" "NC"
    (by decide)⟩

/-- Claim C4 counterexample: an admin creation whose payload carries
totalCents = 5 together with a line summing to 1000 persists an order
with totalCents = 5 but subtotalCents + deliveryCents + taxCents = 1000,
so the claimed invariant fails on an order that exists after a creation
operation. -/
theorem c4_counterexample :
    OrdersRoute.createOrder dbEmpty (some adminS1) bodyAdminTotalMismatch "o4" =
      (.ok 201 oC4, { dbEmpty with orders := [oC4] }) ∧
    oC4.totalCents ≠ oC4.subtotalCents + oC4.deliveryCents + oC4.taxCents := by
  refine ⟨?_, ?_⟩ <;> decide

/-- Claim C5 counterexample: the admin channel persists the
client-supplied nonzero subtotal (5000) even though the server-recomputed
sum of unitPriceCents * quantity is 1000 — the JS fallback
`body.subtotalCents || computedSubtotal` prefers the client value
whenever it is nonzero. -/
theorem c5_counterexample :
    OrdersRoute.createOrder dbEmpty (some adminS1) bodyAdminSubtotal5000 "o5" =
      (.ok 201 oC5, { dbEmpty with orders := [oC5] }) ∧
    (bodyAdminSubtotal5000.items.map
      (fun it => it.unitPriceCents * it.quantity)).sum = 1000 ∧
    oC5.subtotalCents ≠ (bodyAdminSubtotal5000.items.map
      (fun it => it.unitPriceCents * it.quantity)).sum := by
  refine ⟨?_, ?_, ?_⟩ <;> decide

/-- Claim C6 counterexample: a storefront request repeating the same
existing product id twice IS rejected by the existence check — the code
compares the found-products count (1) with the raw requested-item count
(2), not with the distinct-id count. -/
theorem c6_counterexample :
    OrdersRoute.storefrontCreateOrder dbA bodyDup "od" "ND" =
      (.err 400 "One or more products no longer exist", dbA) := by
  decide

/-- Claim C3: in every successful storefront order creation, each created
OrderItem snapshots the referenced product's current priceCents as
unitPriceCents (never a client-supplied price) together with its current
title/sku/thumbnail, and the order's storeId equals the product's
storeId. -/
theorem c3_storefront_snapshots_product
    (db : Db) (body : StorefrontCreateOrderBody) (newId orderNumber : String)
    (o : Order) (db2 : Db)
    (h : OrdersRoute.storefrontCreateOrder db body newId orderNumber =
      (.ok 201 o, db2)) :
    ∀ it ∈ o.items, ∃ p ∈ db.products,
      p.id = it.productId ∧
      it.unitPriceCents = p.priceCents ∧
      it.lineTotalCents = p.priceCents * it.quantity ∧
      it.productTitle = p.title ∧
      it.productSku = p.sku ∧
      it.productImageUrl = p.thumbnailUrl ∧
      o.storeId = p.storeId := by
  obtain ⟨p0, rest, itemCreates, hprod, hdedup, hbuild, hitems, hstore,
    -, -, -, -⟩ := storefrontCreateOrder_ok_inv h
  intro it hit
  rw [hitems] at hit
  obtain ⟨b, p, hfind, hmk⟩ := buildStorefrontItems_mem hbuild it hit
  have hpmem : p ∈ p0 :: rest := List.mem_of_find?_eq_some hfind
  have hpdb : p ∈ db.products := by
    have hx : p ∈ db.products.filter (fun q =>
        (body.items.map StorefrontItemBody.productId).contains q.id) := by
      rw [hprod]; exact hpmem
    exact List.mem_of_mem_filter hx
  have hpid : p.id = b.productId := by
    have hb := List.find?_some hfind
    simp only [beq_iff_eq] at hb
    exact hb
  subst hmk
  refine ⟨p, hpdb, ?_, rfl, rfl, rfl, rfl, rfl, ?_⟩
  · exact hpid
  · rw [hstore]
    exact eq_of_mem_of_dedup_length_le_one hdedup
      (List.mem_map_of_mem _ (List.mem_cons_self p0 rest))
      (List.mem_map_of_mem _ hpmem)

/-- Witness for C3: ordering quantity 2 of product pa (priceCents 1000,
sku SKU-1, store S1) creates the order oQty2 with unitPriceCents 1000
snapshotted, subtotalCents 2000 and storeId S1. -/
theorem c3_witness :
    OrdersRoute.storefrontCreateOrder dbA bodyQty2 "oq" "N1" =
      (.ok 201 oQty2, dbA2) ∧
    (∀ it ∈ oQty2.items, ∃ p ∈ dbA.products,
      p.id = it.productId ∧
      it.unitPriceCents = p.priceCents ∧
      it.lineTotalCents = p.priceCents * it.quantity ∧
      it.productTitle = p.title ∧
      it.productSku = p.sku ∧
      it.productImageUrl = p.thumbnailUrl ∧
      oQty2.storeId = p.storeId) ∧
    oQty2.subtotalCents = 2000 :=
  ⟨by decide,
   c3_storefront_snapshots_product dbA bodyQty2 "oq" "N1" oQty2 dbA2
     (by decide),
   by decide⟩

/-- Claim C4, amended: every order created through the storefront channel
satisfies totalCents = subtotalCents + deliveryCents + taxCents and
subtotalCents = sum of its items' lineTotalCents (the admin channel
persists client-supplied totals and may violate both equations, see the
counterexample). -/
theorem c4_storefront_totals_invariant
    (db : Db) (body : StorefrontCreateOrderBody) (newId orderNumber : String)
    (o : Order) (db2 : Db)
    (h : OrdersRoute.storefrontCreateOrder db body newId orderNumber =
      (.ok 201 o, db2)) :
    o.totalCents = o.subtotalCents + o.deliveryCents + o.taxCents ∧
    o.subtotalCents = (o.items.map OrderItem.lineTotalCents).sum := by
  obtain ⟨p0, rest, itemCreates, -, -, -, hitems, -, hsub, -, -, htot⟩ :=
    storefrontCreateOrder_ok_inv h
  exact ⟨htot, by rw [hitems, hsub]⟩

/-- Witness for C4's amended statement: the storefront order oQty2 has
totalCents 2000 = 2000 + 0 + 0 and subtotalCents equal to its single
item's lineTotalCents. -/
theorem c4_witness :
    oQty2.totalCents = oQty2.subtotalCents + oQty2.deliveryCents +
      oQty2.taxCents ∧
    oQty2.subtotalCents = (oQty2.items.map OrderItem.lineTotalCents).sum :=
  c4_storefront_totals_invariant dbA bodyQty2 "oq" "N1" oQty2 dbA2 (by decide)

/-- Claim C5, amended: the admin channel persists the client-supplied
subtotal whenever it is nonzero, and the server-recomputed sum of
unitPriceCents * quantity only when the client-supplied subtotal is
zero. -/
theorem c5_admin_subtotal_rule
    (db : Db) (u : Principal) (body : CreateOrderBody) (newId : String)
    (o : Order) (db2 : Db)
    (h : OrdersRoute.createOrder db (some u) body newId = (.ok 201 o, db2)) :
    o.subtotalCents =
      if body.subtotalCents = 0
      then (body.items.map (fun it => it.unitPriceCents * it.quantity)).sum
      else body.subtotalCents := by
  obtain ⟨s, -, hfs⟩ := createOrder_ok_resolution h
  exact (createOrderForStore_ok_inv hfs).2

/-- Witness for C5's amended statement: with a client-supplied subtotal of
5000 the persisted subtotal is 5000, not the recomputed 1000. -/
theorem c5_witness :
    oC5.subtotalCents =
      if bodyAdminSubtotal5000.subtotalCents = 0
      then (bodyAdminSubtotal5000.items.map
        (fun it => it.unitPriceCents * it.quantity)).sum
      else bodyAdminSubtotal5000.subtotalCents :=
  c5_admin_subtotal_rule dbEmpty adminS1 bodyAdminSubtotal5000 "o5" oC5
    { dbEmpty with orders := [oC5] } (by decide)

/-- Claim C6, amended: the storefront existence check fails with the
"product no longer exists" error exactly when the number of product rows
found differs from the raw number of requested items (duplicates counted
separately, NOT the distinct-id count), so a request repeating the same
existing product id twice is rejected by this check. -/
theorem c6_missing_check_uses_raw_count
    (db : Db) (body : StorefrontCreateOrderBody) (newId orderNumber : String) :
    ((OrdersRoute.storefrontCreateOrder db body newId orderNumber).1 =
      .err 400 "One or more products no longer exist") ↔
    (db.products.filter (fun p =>
      (body.items.map StorefrontItemBody.productId).contains p.id)).length ≠
      body.items.length := by
  have hlen : (body.items.map StorefrontItemBody.productId).length =
      body.items.length := List.length_map _ _
  simp only [OrdersRoute.storefrontCreateOrder]
  split_ifs with h1 h2
  · rw [hlen] at h1
    exact iff_of_true rfl h1
  · rw [hlen] at h1
    refine iff_of_false ?_ h1
    intro hx
    simp only [HResult.err.injEq] at hx
    exact absurd hx.2 (by decide)
  · rw [hlen] at h1
    split
    · refine iff_of_false ?_ h1
      intro hx
      simp only [HResult.err.injEq] at hx
      exact absurd hx.1 (by decide)
    · split
      · refine iff_of_false ?_ h1
        intro hx
        simp only [HResult.err.injEq] at hx
        exact absurd hx.1 (by decide)
      · refine iff_of_false ?_ h1
        intro hx
        exact HResult.noConfusion hx

/-- Claim C7 counterexample: an ADMIN of store S1 supplying storeId S2 in
a product-creation payload is rejected with 403 and nothing is created —
not, as the claim states, a successful creation under the principal's own
tenant. -/
theorem c7_counterexample :
    ProductsRoute.createProduct dbStores (some adminS1) bodyProdBad "px" =
      (.err 403 "You do not have permission to create products for this store.",
       dbStores) := by
  decide

/-- Claim C8 counterexample: an order in the terminal status FULFILLED is
patched back to PENDING by the status endpoint — the code stores any
requested status with no transition restriction. -/
theorem c8_counterexample :
    orderF.status = .FULFILLED ∧
    OrdersRoute.patchOrderStatus dbF (some adminS1) "of1" .PENDING =
      (.ok 200 oFP, { dbF with orders := [oFP] }) ∧
    oFP.status = .PENDING := by
  refine ⟨?_, ?_, ?_⟩ <;> decide

/-- Claim C7, amended: for order and category creation by an ADMIN or
STAFF principal the payload storeId is ignored and the record is created
under the principal's own storeId; product creation instead requires the
payload storeId to equal the principal's storeId and fails with 403
(creating nothing) on mismatch — so in every successful creation the
record's tenant is the principal's own storeId, but a foreign storeId in
a product payload yields a 403 rather than a successful creation. -/
theorem c7_admin_create_own_tenant :
    (∀ (db : Db) (u : Principal) (body : CreateOrderBody) (newId : String)
        (o : Order) (db2 : Db),
        (u.role = .ADMIN ∨ u.role = .STAFF) →
        OrdersRoute.createOrder db (some u) body newId = (.ok 201 o, db2) →
        u.storeId = some o.storeId) ∧
    (∀ (db : Db) (u : Principal) (body : CategoryCreateBody) (newId : String)
        (c : Category) (db2 : Db),
        (u.role = .ADMIN ∨ u.role = .STAFF) →
        CategoriesRoute.createCategory db (some u) body newId =
          (.ok 201 c, db2) →
        u.storeId = some c.storeId) ∧
    (∀ (db : Db) (u : Principal) (body : ProductCreateBody) (newId : String)
        (p : Product) (db2 : Db),
        (u.role = .ADMIN ∨ u.role = .STAFF) →
        ProductsRoute.createProduct db (some u) body newId =
          (.ok 201 p, db2) →
        u.storeId = some p.storeId) ∧
    (∀ (db : Db) (u : Principal) (body : ProductCreateBody) (newId : String),
        (u.role = .ADMIN ∨ u.role = .STAFF) →
        u.storeId ≠ some body.storeId →
        ProductsRoute.createProduct db (some u) body newId =
          (.err 403
            "You do not have permission to create products for this store.",
           db)) := by
  refine ⟨?_, ?_, ?_, ?_⟩
  · intro db u body newId o db2 hrole h
    obtain ⟨s, hres, hfs⟩ := createOrder_ok_resolution h
    rcases hres with ⟨hsup, -⟩ | ⟨-, hu⟩
    · rcases hrole with hr | hr <;> rw [hr] at hsup <;>
        exact absurd hsup (by decide)
    · rw [hu, (createOrderForStore_ok_inv hfs).1]
  · intro db u body newId c db2 hrole h
    obtain ⟨s, hres, hfs⟩ := createCategory_ok_resolution h
    rcases hres with ⟨hsup, -⟩ | ⟨-, hu⟩
    · rcases hrole with hr | hr <;> rw [hr] at hsup <;>
        exact absurd hsup (by decide)
    · rw [hu, createCategoryForStore_ok_inv hfs]
  · intro db u body newId p db2 hrole h
    simp only [ProductsRoute.createProduct] at h
    have hadm : ¬ isAdminRole u.role = false := by
      rcases hrole with hr | hr <;> simp [hr, isAdminRole]
    rw [if_neg hadm] at h
    by_cases hmis : (match u.storeId with
        | none => true
        | some s => s != body.storeId) = true
    · rw [if_pos hmis] at h; simp at h
    · rw [if_neg hmis] at h
      by_cases hstore : db.stores.any (fun s => s.id == body.storeId) = false
      · rw [if_pos hstore] at h; simp at h
      · rw [if_neg hstore] at h
        simp only [Prod.mk.injEq, HResult.ok.injEq] at h
        obtain ⟨⟨-, hp⟩, -⟩ := h
        subst hp
        cases hu : u.storeId with
        | none => rw [hu] at hmis; exact absurd rfl hmis
        | some s =>
          rw [hu] at hmis
          have hseq : s = body.storeId := by
            by_contra hne
            exact hmis (by simpa [bne_iff_ne] using hne)
          rw [hseq]
  · intro db u body newId hrole hne
    simp only [ProductsRoute.createProduct]
    have hadm : ¬ isAdminRole u.role = false := by
      rcases hrole with hr | hr <;> simp [hr, isAdminRole]
    rw [if_neg hadm]
    have hmis : (match u.storeId with
        | none => true
        | some s => s != body.storeId) = true := by
      cases hu : u.storeId with
      | none => rfl
      | some s =>
        have hsne : s ≠ body.storeId := fun hx => hne (by rw [hu, hx])
        simpa [bne_iff_ne] using hsne
    rw [if_pos hmis]

/-- Witness for C7's amended statement: adminS1 (store S1) creating an
order and a category with a smuggled storeId S2 still creates them under
S1; a product created with the matching storeId S1 lands under S1; a
product body carrying S2 is rejected with 403. -/
theorem c7_witness :
    adminS1.storeId = some oC7.storeId ∧
    adminS1.storeId = some catC7.storeId ∧
    adminS1.storeId = some prodC7.storeId ∧
    ProductsRoute.createProduct dbStores (some adminS1) bodyProdBad "px" =
      (.err 403
        "You do not have permission to create products for this store.",
       dbStores) :=
  ⟨c7_admin_create_own_tenant.1 dbStores adminS1 bodyOrderSmuggle "o7" oC7
     { dbStores with orders := [oC7] } (Or.inl rfl) (by decide),
   c7_admin_create_own_tenant.2.1 dbStores adminS1 bodyCatSmuggle "c7" catC7
     { dbStores with categories := [catC7] } (Or.inl rfl) (by decide),
   c7_admin_create_own_tenant.2.2.1 dbStores adminS1 bodyProdOk "p7" prodC7
     { dbStores with products := [prodC7] } (Or.inl rfl) (by decide),
   c7_admin_create_own_tenant.2.2.2 dbStores adminS1 bodyProdBad "px"
     (Or.inl rfl) (by decide)⟩

/-- Claim C8, amended: the status mutation stores any requested status
for any order that passes the tenant check, with no transition
restriction — in particular FULFILLED and CANCELLED are not terminal and
every pair of statuses is a reachable transition. -/
theorem c8_status_patch_unrestricted
    (db : Db) (u : Principal) (id : String) (s : OrderStatus) (o : Order)
    (hfind : db.orders.find? (fun x => x.id == id) = some o)
    (hadmin : isAdminRole u.role = true)
    (htenant : tenantDenied u o.storeId = false) :
    (OrdersRoute.patchOrderStatus db (some u) id s).1 =
      .ok 200 { o with status := s } ∧
    { o with status := s } ∈
      (OrdersRoute.patchOrderStatus db (some u) id s).2.orders := by
  have hid : (o.id == id) = true := by
    have hb := List.find?_some hfind
    simpa using hb
  have hmem : o ∈ db.orders := List.mem_of_find?_eq_some hfind
  constructor
  · simp [OrdersRoute.patchOrderStatus, hadmin, hfind, htenant]
  · simp only [OrdersRoute.patchOrderStatus, hadmin, hfind, htenant,
      Bool.true_eq_false, if_false, Bool.false_eq_true, ite_false]
    refine List.mem_map.mpr ⟨o, hmem, ?_⟩
    simp [hid]

/-- Witness for C8's amended statement: the FULFILLED order orderF is
moved to PAID by the status endpoint of its own store's admin. -/
theorem c8_witness :
    (OrdersRoute.patchOrderStatus dbF (some adminS1) "of1" .PAID).1 =
      .ok 200 { orderF with status := .PAID } ∧
    { orderF with status := .PAID } ∈
      (OrdersRoute.patchOrderStatus dbF (some adminS1) "of1" .PAID).2.orders :=
  c8_status_patch_unrestricted dbF adminS1 "of1" .PAID orderF (by decide)
    (by decide) (by decide)

/-- Claim C9: deleting a category that is still referenced by at least
one ProductCategory row is rejected with Conflict 409 (the Prisma P2003
foreign-key failure mapped to a domain error, not a 500) and the database
— in particular the Category row — is left unchanged. -/
theorem c9_category_delete_conflict
    (db : Db) (u : Principal) (id : String) (c : Category)
    (hfind : db.categories.find? (fun x => x.id == id) = some c)
    (hadmin : isAdminRole u.role = true)
    (htenant : tenantDenied u c.storeId = false)
    (href : db.productCategories.any (fun pc => pc.categoryId == id) = true) :
    CategoriesRoute.deleteCategory db (some u) id =
      (.err 409 "Category is in use by products", db) := by
  simp [CategoriesRoute.deleteCategory, hadmin, hfind, htenant, href]

/-- Witness for C9: category c1 of store S1 is referenced by product pa,
so its deletion by the S1 admin returns 409 and leaves the database
unchanged. -/
theorem c9_witness :
    CategoriesRoute.deleteCategory dbCat (some adminS1) "c1" =
      (.err 409 "Category is in use by products", dbCat) :=
  c9_category_delete_conflict dbCat adminS1 "c1" catS1 (by decide) (by decide)
    (by decide) (by decide)

/-- Claim C10: a successful admin order update leaves the order's
orderNumber, storeId, subtotalCents, currency, paymentMethod and its
OrderItems unchanged — the update DTO admits only customer/address/note
fields, deliveryCents, taxCents, totalCents and status. -/
theorem c10_update_frame
    (db : Db) (u : Principal) (id : String) (body : UpdateOrderBody)
    (o o2 : Order) (db2 : Db)
    (hfind : db.orders.find? (fun x => x.id == id) = some o)
    (h : OrdersRoute.updateOrder db (some u) id body = (.ok 200 o2, db2)) :
    o2.orderNumber = o.orderNumber ∧
    o2.storeId = o.storeId ∧
    o2.subtotalCents = o.subtotalCents ∧
    o2.currency = o.currency ∧
    o2.paymentMethod = o.paymentMethod ∧
    o2.items = o.items := by
  simp only [OrdersRoute.updateOrder, hfind] at h
  by_cases hadm : isAdminRole u.role = false
  · rw [if_pos hadm] at h; simp at h
  · rw [if_neg hadm] at h
    by_cases hten : tenantDenied u o.storeId = true
    · rw [if_pos hten] at h; simp at h
    · rw [if_neg hten] at h
      simp only [Prod.mk.injEq, HResult.ok.injEq] at h
      obtain ⟨⟨-, ho⟩, -⟩ := h
      subst ho
      exact ⟨rfl, rfl, rfl, rfl, rfl, rfl⟩

/-- Witness for C10: updating orderU's name, address, adminNote,
deliveryCents, totalCents and status leaves orderNumber, storeId,
subtotalCents, currency, paymentMethod and the items untouched. -/
theorem c10_witness :
    OrdersRoute.updateOrder dbU (some adminS1) "ou" bodyUpd =
      (.ok 200 orderU2, { dbU with orders := [orderU2] }) ∧
    (orderU2.orderNumber = orderU.orderNumber ∧
     orderU2.storeId = orderU.storeId ∧
     orderU2.subtotalCents = orderU.subtotalCents ∧
     orderU2.currency = orderU.currency ∧
     orderU2.paymentMethod = orderU.paymentMethod ∧
     orderU2.items = orderU.items) :=
  ⟨by decide,
   c10_update_frame dbU adminS1 "ou" bodyUpd orderU orderU2
     { dbU with orders := [orderU2] } (by decide) (by decide)⟩

end EcomBackend
